import Mathlib

/-!
# rust-c-lib/cpart/mytime.h

The C header consists of three top-level declarations and nothing else:

    typedef struct tm { int tm_sec; int tm_min; int tm_hour; int tm_mday; int tm_mon;
                        int tm_year; int tm_wday; int tm_yday; int tm_isdst; } StructTM;
    extern int mktime(StructTM*);
    extern char* asctime(StructTM*);

The record type is embedded as a Lean structure whose fields are C int values, and the
translation unit itself is embedded as the list of its declarations, so that statements
about what the header declares (and what it does not define) can be evaluated.
-/

namespace MyTime

/-! ## The C type int -/

/-- Least value of a C int (two's complement, 32 bits: the ABI of the targets the header is
compiled for; the header itself does not fix the width). -/
def INT_MIN : Int := -2147483648

/-- Greatest value of a C int (32 bits). -/
def INT_MAX : Int := 2147483647

/-- A value of the C type int: an integer within the representable range. -/
abbrev CInt : Type := { v : Int // INT_MIN ≤ v ∧ v ≤ INT_MAX }

/-! ## The record: lines 1-11 of the header -/

/-- The record declared by the typedef: each member is declared int, in this order. -/
structure StructTM where
  tm_sec : CInt
  tm_min : CInt
  tm_hour : CInt
  tm_mday : CInt
  tm_mon : CInt
  tm_year : CInt
  tm_wday : CInt
  tm_yday : CInt
  tm_isdst : CInt
deriving DecidableEq

/-- The member at position k of the declaration (k = 0 is tm_sec, k = 8 is tm_isdst). -/
def StructTM.field (r : StructTM) : Fin 9 → CInt :=
  ![r.tm_sec, r.tm_min, r.tm_hour, r.tm_mday, r.tm_mon, r.tm_year, r.tm_wday, r.tm_yday,
    r.tm_isdst]

/-- The record whose member at position k is v k: a C initializer list in declaration order. -/
def StructTM.ofFields (v : Fin 9 → CInt) : StructTM :=
  ⟨v 0, v 1, v 2, v 3, v 4, v 5, v 6, v 7, v 8⟩

/-! ## The translation unit as a list of declarations -/

/-- The C types that occur in the header. -/
inductive CType where
  | int : CType
  | char : CType
  | named : String → CType
  | ptr : CType → CType
deriving DecidableEq, Repr

/-- Integer types among the types above. -/
def CType.isIntegral : CType → Bool
  | .int => true
  | .char => true
  | _ => false

/-- One member declaration of a struct: its type and its name. -/
structure FieldDecl where
  type : CType
  name : String
deriving DecidableEq, Repr

/-- The shape of a function declaration: result type and the types of its parameters. -/
structure FunSig where
  ret : CType
  params : List CType
deriving DecidableEq, Repr

/-- A top-level declaration of a C translation unit. A function definition carries its body,
taken as the transformation it performs on the record its pointer argument refers to; a
prototype carries none. -/
inductive Decl where
  | typedefStruct (tag : String) (fields : List FieldDecl) (tdName : String) : Decl
  | externFun (ret : CType) (name : String) (params : List CType) : Decl
  | funDef (ret : CType) (name : String) (params : List CType)
      (body : StructTM → StructTM) : Decl

/-- The header, declaration by declaration. -/
def mytime_h : List Decl :=
  [ Decl.typedefStruct "tm"
      [ ⟨CType.int, "tm_sec"⟩,
        ⟨CType.int, "tm_min"⟩,
        ⟨CType.int, "tm_hour"⟩,
        ⟨CType.int, "tm_mday"⟩,
        ⟨CType.int, "tm_mon"⟩,
        ⟨CType.int, "tm_year"⟩,
        ⟨CType.int, "tm_wday"⟩,
        ⟨CType.int, "tm_yday"⟩,
        ⟨CType.int, "tm_isdst"⟩ ]
      "StructTM",
    Decl.externFun CType.int "mktime" [CType.ptr (CType.named "StructTM")],
    Decl.externFun (CType.ptr CType.char) "asctime" [CType.ptr (CType.named "StructTM")] ]

/-- The members of the struct that a typedef name stands for, if the unit declares it. -/
def structFields (tdName : String) : List Decl → Option (List FieldDecl)
  | [] => none
  | Decl.typedefStruct _ fields a :: rest =>
      if a = tdName then some fields else structFields tdName rest
  | _ :: rest => structFields tdName rest

/-- The signature under which a function name is declared or defined in the unit. -/
def funSig? (name : String) : List Decl → Option FunSig
  | [] => none
  | Decl.externFun ret n params :: rest =>
      if n = name then some ⟨ret, params⟩ else funSig? name rest
  | Decl.funDef ret n params _ :: rest =>
      if n = name then some ⟨ret, params⟩ else funSig? name rest
  | _ :: rest => funSig? name rest

/-- Names declared as prototypes only (extern, no body), in order. -/
def externNames : List Decl → List String
  | [] => []
  | Decl.externFun _ n _ :: rest => n :: externNames rest
  | _ :: rest => externNames rest

/-- Names of the functions the unit defines (with a body), in order. -/
def definedNames : List Decl → List String
  | [] => []
  | Decl.funDef _ n _ _ :: rest => n :: definedNames rest
  | _ :: rest => definedNames rest

/-- The body the unit gives to a function name, if it defines one. -/
def bodyOf? (name : String) : List Decl → Option (StructTM → StructTM)
  | [] => none
  | Decl.funDef _ n _ body :: rest => if n = name then some body else bodyOf? name rest
  | _ :: rest => bodyOf? name rest

/-- What the code defined in the unit under a name does to a record: the body runs if the
unit has one for that name, and the unit contributes nothing otherwise. -/
def definedEffect (unit : List Decl) (name : String) (r : StructTM) : StructTM :=
  match bodyOf? name unit with
  | some body => body r
  | none => r

/-! ## Storage layout of a struct

The header fixes the members and their order; the platform fixes the size and alignment of
the scalar types. The layout rule is the usual one of C ABIs: members are placed in
declaration order, each at the first offset at or after the end of the previous member that
is a multiple of its alignment, and the size of the struct is the end of the last member
rounded up to the greatest member alignment. -/

/-- Size and alignment, in bytes, that a platform gives to the scalar types of the header. -/
structure ABI where
  intSize : Nat
  intAlign : Nat
  charSize : Nat
  charAlign : Nat
  ptrSize : Nat
  ptrAlign : Nat

/-- A platform with a 4-byte, 4-byte-aligned int, 1-byte char and 8-byte pointers. -/
def lp64 : ABI := ⟨4, 4, 1, 1, 8, 8⟩

/-- Size in bytes of a scalar type; a typedef name is not a scalar. -/
def CType.size? (abi : ABI) : CType → Option Nat
  | .int => some abi.intSize
  | .char => some abi.charSize
  | .ptr _ => some abi.ptrSize
  | .named _ => none

/-- Alignment in bytes of a scalar type; a typedef name is not a scalar. -/
def CType.align? (abi : ABI) : CType → Option Nat
  | .int => some abi.intAlign
  | .char => some abi.charAlign
  | .ptr _ => some abi.ptrAlign
  | .named _ => none

/-- The least multiple of a that is at least off (off itself when a is 0). -/
def alignUp (off a : Nat) : Nat :=
  if a = 0 then off else (off + a - 1) / a * a

/-- Members placed in order from byte off: the (offset, size) of each member, and the end of
the last one. -/
def layoutFrom (abi : ABI) : Nat → List FieldDecl → Option (List (Nat × Nat) × Nat)
  | off, [] => some ([], off)
  | off, f :: fs =>
    match f.type.size? abi, f.type.align? abi with
    | some sz, some al =>
      match layoutFrom abi (alignUp off al + sz) fs with
      | some (rest, e) => some ((alignUp off al, sz) :: rest, e)
      | none => none
    | _, _ => none

/-- The alignment of a struct: the greatest alignment among its members (1 if it has none). -/
def membersAlign? (abi : ABI) : List FieldDecl → Option Nat
  | [] => some 1
  | f :: fs =>
    match f.type.align? abi, membersAlign? abi fs with
    | some al, some m => some (max al m)
    | _, _ => none

/-- The (offset, size) of every member of the struct a typedef name stands for. -/
def structLayout? (abi : ABI) (tdName : String) (unit : List Decl) :
    Option (List (Nat × Nat)) :=
  match structFields tdName unit with
  | some fs => (layoutFrom abi 0 fs).map Prod.fst
  | none => none

/-- The byte offset of every member, in declaration order. -/
def structOffsets? (abi : ABI) (tdName : String) (unit : List Decl) : Option (List Nat) :=
  (structLayout? abi tdName unit).map (fun l => l.map Prod.fst)

/-- The size of the struct: the end of its last member rounded up to its alignment. -/
def structSize? (abi : ABI) (tdName : String) (unit : List Decl) : Option Nat :=
  match structFields tdName unit with
  | some fs =>
    match layoutFrom abi 0 fs, membersAlign? abi fs with
    | some (_, e), some al => some (alignUp e al)
    | _, _ => none
  | none => none

/-- The bytes of the struct that belong to no member: its size less the sizes of its
members. -/
def structPadding? (abi : ABI) (tdName : String) (unit : List Decl) : Option Nat :=
  match structSize? abi tdName unit, structLayout? abi tdName unit with
  | some sz, some l => some (sz - (l.map Prod.snd).sum)
  | _, _ => none

/-- Whether every member of a layout ends at or before the offset where the next begins. -/
def membersDisjoint : List (Nat × Nat) → Bool
  | a :: b :: rest => decide (a.1 + a.2 ≤ b.1) && membersDisjoint (b :: rest)
  | _ => true

/-! ## Helper facts -/

/-- Reading the members of a record and building a record from them gives it back. -/
theorem StructTM.ofFields_field (r : StructTM) : StructTM.ofFields r.field = r := by
  cases r; rfl

/-- Building a record from nine values and reading its members gives the values back. -/
theorem StructTM.field_ofFields (v : Fin 9 → CInt) : (StructTM.ofFields v).field = v := by
  funext k
  fin_cases k <;> rfl

/-- The header gives no body to any name. -/
theorem bodyOf?_mytime_h (name : String) : bodyOf? name mytime_h = none := by
  simp [mytime_h, bodyOf?]

/-! ## The claims -/

/-- Claim C1: the record StructTM has exactly nine members, each declared int, in the order
tm_sec, tm_min, tm_hour, tm_mday, tm_mon, tm_year, tm_wday, tm_yday, tm_isdst, and no other
member: the header declares exactly that member list, and a record is determined by, and can
be built from, exactly those nine int values (the members in declaration order). -/
theorem structTM_nine_int_fields :
    structFields "StructTM" mytime_h =
        some [ ⟨CType.int, "tm_sec"⟩, ⟨CType.int, "tm_min"⟩, ⟨CType.int, "tm_hour"⟩,
               ⟨CType.int, "tm_mday"⟩, ⟨CType.int, "tm_mon"⟩, ⟨CType.int, "tm_year"⟩,
               ⟨CType.int, "tm_wday"⟩, ⟨CType.int, "tm_yday"⟩, ⟨CType.int, "tm_isdst"⟩ ] ∧
      (structFields "StructTM" mytime_h).map List.length = some 9 ∧
      (structFields "StructTM" mytime_h).map
          (fun fs => fs.all (fun f => decide (f.type = CType.int))) = some true ∧
      (∀ r : StructTM,
        r.field 0 = r.tm_sec ∧ r.field 1 = r.tm_min ∧ r.field 2 = r.tm_hour ∧
        r.field 3 = r.tm_mday ∧ r.field 4 = r.tm_mon ∧ r.field 5 = r.tm_year ∧
        r.field 6 = r.tm_wday ∧ r.field 7 = r.tm_yday ∧ r.field 8 = r.tm_isdst) ∧
      (∀ r : StructTM, StructTM.ofFields r.field = r) ∧
      (∀ v : Fin 9 → CInt, (StructTM.ofFields v).field = v) := by
  refine ⟨by decide, by decide, by decide, ?_, StructTM.ofFields_field,
    StructTM.field_ofFields⟩
  intro r
  exact ⟨rfl, rfl, rfl, rfl, rfl, rfl, rfl, rfl, rfl⟩

/-- Claim C2: mktime is declared with exactly one parameter, of type pointer to StructTM, and
its result type is the integral type int. -/
theorem mktime_declared_signature :
    funSig? "mktime" mytime_h = some ⟨CType.int, [CType.ptr (CType.named "StructTM")]⟩ ∧
      (funSig? "mktime" mytime_h).map (fun s => s.params.length) = some 1 ∧
      (funSig? "mktime" mytime_h).map (fun s => s.ret.isIntegral) = some true ∧
      (structFields "StructTM" mytime_h).isSome = true := by
  refine ⟨by decide, by decide, by decide, by decide⟩

/-- Claim C3: asctime is declared with exactly one parameter, of type pointer to StructTM, and
its result type is pointer to char. -/
theorem asctime_declared_signature :
    funSig? "asctime" mytime_h =
        some ⟨CType.ptr CType.char, [CType.ptr (CType.named "StructTM")]⟩ ∧
      (funSig? "asctime" mytime_h).map (fun s => s.params.length) = some 1 ∧
      (funSig? "asctime" mytime_h).map (fun s => s.ret) = some (CType.ptr CType.char) ∧
      (structFields "StructTM" mytime_h).isSome = true := by
  refine ⟨by decide, by decide, by decide, by decide⟩

/-- Claim C4: the record type enforces no calendar range: for every choice of nine int values
there is a record holding exactly those values (the constructor is a total function of the
nine values), among them out-of-range ones such as tm_min = 61, tm_mon = 12 and a negative
tm_sec. -/
theorem structTM_no_range_enforced :
    (∀ sec min hour mday mon year wday yday isdst : CInt,
        ∃ r : StructTM,
          r = StructTM.mk sec min hour mday mon year wday yday isdst ∧
          r.tm_sec = sec ∧ r.tm_min = min ∧ r.tm_hour = hour ∧ r.tm_mday = mday ∧
          r.tm_mon = mon ∧ r.tm_year = year ∧ r.tm_wday = wday ∧ r.tm_yday = yday ∧
          r.tm_isdst = isdst) ∧
      (∃ r : StructTM, r.tm_min.val = 61 ∧ r.tm_mon.val = 12 ∧ r.tm_sec.val = -1) := by
  constructor
  · intro sec min hour mday mon year wday yday isdst
    exact ⟨⟨sec, min, hour, mday, mon, year, wday, yday, isdst⟩,
      rfl, rfl, rfl, rfl, rfl, rfl, rfl, rfl, rfl, rfl⟩
  · have z : INT_MIN ≤ (0 : Int) ∧ (0 : Int) ≤ INT_MAX := by decide
    exact ⟨⟨⟨-1, by decide⟩, ⟨61, by decide⟩, ⟨0, z⟩, ⟨0, z⟩, ⟨12, by decide⟩, ⟨0, z⟩, ⟨0, z⟩,
      ⟨0, z⟩, ⟨0, z⟩⟩, rfl, rfl, rfl⟩

/-- Claim C5: the header contains no function definition; mktime and asctime occur only as
extern prototypes without a body; hence the code the header defines under any name leaves
every record, member for member, as it was. -/
theorem header_defines_no_function :
    definedNames mytime_h = [] ∧
      externNames mytime_h = ["mktime", "asctime"] ∧
      (∀ name : String, (bodyOf? name mytime_h).isNone = true) ∧
      (∀ (name : String) (r : StructTM),
        definedEffect mytime_h name r = r ∧
        (definedEffect mytime_h name r).field = r.field) := by
  refine ⟨rfl, rfl, ?_, ?_⟩
  · intro name
    rw [bodyOf?_mytime_h]
    rfl
  · intro name r
    have h : definedEffect mytime_h name r = r := by
      unfold definedEffect
      rw [bodyOf?_mytime_h]
    exact ⟨h, by rw [h]⟩

/-- Claim C7: on a platform whose int is 4 bytes wide and 4-byte aligned, the usual C layout
rule places member k of StructTM (k = 0 for tm_sec up to k = 8 for tm_isdst) at byte offset
4 * k, the members do not overlap, the record has no padding, and its size is exactly 36
bytes. -/
theorem structTM_layout (abi : ABI) (hs : abi.intSize = 4) (ha : abi.intAlign = 4) :
    structOffsets? abi "StructTM" mytime_h = some [0, 4, 8, 12, 16, 20, 24, 28, 32] ∧
      (∀ k : Fin 9,
        (structOffsets? abi "StructTM" mytime_h).bind (fun os => os[k.val]?) =
          some (4 * k.val)) ∧
      (structLayout? abi "StructTM" mytime_h).map (fun l => l.map Prod.snd) =
        some [4, 4, 4, 4, 4, 4, 4, 4, 4] ∧
      (structLayout? abi "StructTM" mytime_h).map membersDisjoint = some true ∧
      structPadding? abi "StructTM" mytime_h = some 0 ∧
      structSize? abi "StructTM" mytime_h = some 36 := by
  have hl : structLayout? abi "StructTM" mytime_h =
      some [(0, 4), (4, 4), (8, 4), (12, 4), (16, 4), (20, 4), (24, 4), (28, 4), (32, 4)] := by
    simp [structLayout?, structFields, mytime_h, layoutFrom, CType.size?, CType.align?,
      alignUp, hs, ha]
  have hz : structSize? abi "StructTM" mytime_h = some 36 := by
    simp [structSize?, structFields, mytime_h, layoutFrom, membersAlign?, CType.size?,
      CType.align?, alignUp, hs, ha]
  have ho : structOffsets? abi "StructTM" mytime_h =
      some [0, 4, 8, 12, 16, 20, 24, 28, 32] := by
    simp [structOffsets?, hl]
  refine ⟨ho, ?_, ?_, ?_, ?_, hz⟩
  · intro k
    rw [ho]
    fin_cases k <;> rfl
  · rw [hl]; rfl
  · rw [hl]; rfl
  · simp [structPadding?, hz, hl]

/-- Claim C7, at a concrete platform: the hypotheses hold for lp64, where StructTM gets
offsets 0, 4, ..., 32 and size 36. -/
theorem structTM_layout_witness :
    lp64.intSize = 4 ∧ lp64.intAlign = 4 ∧
      structOffsets? lp64 "StructTM" mytime_h = some [0, 4, 8, 12, 16, 20, 24, 28, 32] ∧
      structPadding? lp64 "StructTM" mytime_h = some 0 ∧
      structSize? lp64 "StructTM" mytime_h = some 36 :=
  ⟨rfl, rfl, (structTM_layout lp64 rfl rfl).1, (structTM_layout lp64 rfl rfl).2.2.2.2.1,
    (structTM_layout lp64 rfl rfl).2.2.2.2.2⟩

end MyTime
